import Mathlib

/-!
Verification of `scripts/convert_images_to_jpeg.py`.

The script is embedded shallowly:
* filesystem paths are lists of components (`List String`), as in `pathlib.PurePosixPath`;
* `pySuffix` / `pyStem` embed `pathlib.Path.suffix` / `.stem`;
* directory trees are the mutual inductive `Entry`/`EntryList`, and `walkEntry`/`walkList`
  embed the `os.walk` loop of `find_images` (lines 42-61), including the in-place pruning
  `dirs[:] = [d for d in dirs if d not in exclude_dirs]`;
* image objects are `PILImage` (mode and size); `normalizeForJpeg` embeds the mode
  normalization of `convert_to_jpeg` (lines 19-27), recording which operation ran;
* the filesystem is a map from paths to written JPEG files; `convert_to_jpeg` embeds
  lines 12-40, with load/save failures injected through `FileEvent`;
* `mainRun` embeds `main` (lines 63-106): argument resolution, discovery, the conversion
  loop, the printed lines, and the markdown-reference section.
-/

/-- Embeds `pathlib.Path.suffix` applied to a file name: the substring from the last dot,
provided that dot is neither the first nor the last character; otherwise the empty string. -/
def pySuffix (name : String) : String :=
  let cs := name.toList.reverse
  let after := cs.takeWhile (fun c => c ≠ '.')
  match cs.dropWhile (fun c => c ≠ '.') with
  | [] => ""
  | _ :: before =>
    if after.isEmpty then ""
    else if before.isEmpty then ""
    else String.mk ('.' :: after.reverse)

/-- Embeds `pathlib.Path.stem`: the file name with `pySuffix` removed from the end. -/
def pyStem (name : String) : String :=
  String.mk (name.toList.take (name.toList.length - (pySuffix name).toList.length))

/-- ASCII lowercasing of a string, embedding Python `str.lower` on extension strings. -/
def lowerStr (s : String) : String :=
  String.mk (s.toList.map Char.toLower)

/-- The recognized image extensions of `find_images` (line 46). -/
def image_extensions : List String :=
  [".png", ".jpg", ".jpeg", ".gif", ".webp", ".bmp", ".tiff", ".tif", ".svg"]

/-- The default `exclude_dirs` set of `find_images` (line 44). -/
def defaultExcludeDirs : List String :=
  ["node_modules", "dist", ".git", "__pycache__", ".next"]

/-- The per-file test of `find_images` (lines 54-58): the lowercased suffix is a recognized
image extension and is not already a JPEG extension. -/
def goodName (fname : String) : Bool :=
  let ext := lowerStr (pySuffix fname)
  image_extensions.contains ext && !([".jpg", ".jpeg"].contains ext)

mutual
/-- One entry of a directory tree: a file with a name, or a named subdirectory. -/
inductive Entry : Type where
  | file : String → Entry
  | dir : String → EntryList → Entry
/-- The listing of a directory. -/
inductive EntryList : Type where
  | nil : EntryList
  | cons : Entry → EntryList → EntryList
end

mutual
/-- Embeds the `os.walk` recursion of `find_images` on one entry: an excluded directory is
pruned before it is descended into; a file is kept when `goodName` holds. Collected results
are pairs of (directory components below the walk root, file name). -/
def walkEntry (excl : List String) : Entry → List (List String × String)
  | .file f => if goodName f then [([], f)] else []
  | .dir d es =>
    if excl.contains d then []
    else (walkList excl es).map (fun pr => (d :: pr.1, pr.2))
/-- Embeds the `os.walk` recursion of `find_images` on a directory listing. -/
def walkList (excl : List String) : EntryList → List (List String × String)
  | .nil => []
  | .cons e es => walkEntry excl e ++ walkList excl es
end

mutual
/-- Reference collector: every file of the tree, with no pruning and no extension test. -/
def allFilesEntry : Entry → List (List String × String)
  | .file f => [([], f)]
  | .dir d es => (allFilesList es).map (fun pr => (d :: pr.1, pr.2))
/-- Reference collector on a directory listing. -/
def allFilesList : EntryList → List (List String × String)
  | .nil => []
  | .cons e es => allFilesEntry e ++ allFilesList es
end

/-- Simultaneous induction over `Entry` and `EntryList`. -/
theorem entryMutualInd (P : Entry → Prop) (Q : EntryList → Prop)
    (hf : ∀ s, P (.file s))
    (hd : ∀ s es, Q es → P (.dir s es))
    (hn : Q .nil)
    (hc : ∀ e es, P e → Q es → Q (.cons e es)) :
    (∀ e, P e) ∧ (∀ es, Q es) :=
  ⟨fun e => @Entry.rec P Q hf hd hn hc e, fun es => @EntryList.rec P Q hf hd hn hc es⟩

/-- Filtering a mapped list is mapping the filtered list. -/
theorem filterMapComm {α β : Type} (g : α → β) (p : β → Bool) (l : List α) :
    (l.map g).filter p = (l.filter (fun a => p (g a))).map g := by
  induction l with
  | nil => rfl
  | cons a t ih =>
    by_cases h : p (g a) <;> simp [List.filter_cons, h, ih]

/-- The predicate that characterizes `find_images` output: no directory component on the
path is excluded, and the file name passes the extension test. -/
def keptFile (excl : List String) (pr : List String × String) : Bool :=
  pr.1.all (fun d => !(excl.contains d)) && goodName pr.2

/-- C1: `find_images` returns exactly the files of the tree whose lowercased extension is a
recognized image extension other than `.jpg`/`.jpeg` and that lie on no path through an
excluded directory: the pruned walk equals post-filtering the full file listing with
`keptFile`. (Theorem over both motives; the claim reads off the `EntryList` half.) -/
theorem find_images_characterization (excl : List String) :
    ∀ es : EntryList,
      walkList excl es = (allFilesList es).filter (keptFile excl) := by
  have main :=
    entryMutualInd
      (fun e => walkEntry excl e = (allFilesEntry e).filter (keptFile excl))
      (fun es => walkList excl es = (allFilesList es).filter (keptFile excl))
      (by
        intro s
        by_cases h : goodName s <;>
          simp [walkEntry, allFilesEntry, keptFile, List.filter_cons, h])
      (by
        intro s es ih
        by_cases h : excl.contains s
        · simp only [walkEntry, allFilesEntry, h, if_true]
          rw [filterMapComm]
          have hnil : (allFilesList es).filter
              (fun pr => keptFile excl (s :: pr.1, pr.2)) = [] := by
            apply List.filter_eq_nil_iff.mpr
            intro pr _
            have hm : s ∈ excl := by simpa using h
            simp [keptFile, List.all_cons, h]
            intro hs
            exact absurd hm hs
          rw [hnil]
          rfl
        · have hf : excl.contains s = false := by
            simpa using h
          simp only [walkEntry, allFilesEntry, hf, Bool.false_eq_true, if_false, ih]
          rw [filterMapComm]
          congr 1
          apply List.filter_congr
          intro pr _
          have hm : s ∉ excl := by simpa using hf
          simp [keptFile, List.all_cons, hm])
      (by simp [walkList, allFilesList])
      (by
        intro e es ihe ihes
        simp [walkList, allFilesList, List.filter_append, ihe, ihes])
  exact main.2

/-- Embeds `pathlib.Path.name`: the final path component. -/
def pathName (p : List String) : String :=
  p.getLastD ""

/-- Embeds `str(path)` for a POSIX path given by its components. -/
def joinPath (p : List String) : String :=
  String.intercalate "/" p

/-- The PIL color modes distinguished by `convert_to_jpeg` (a representative finite set). -/
inductive PyMode : Type where
  | one | L | LA | P | PA | RGB | RGBA | CMYK | YCbCr | I | F
deriving DecidableEq

/-- A loaded PIL image, abstracted to its color mode and pixel dimensions. -/
structure PILImage : Type where
  mode : PyMode
  size : Nat × Nat
deriving DecidableEq

/-- Which normalization operation lines 19-27 performed on the loaded image. -/
inductive NormStep : Type where
  | composite (background : Nat × Nat × Nat) (expandedFromP : Bool) (maskUsed : Bool)
  | directConvert
  | unchanged
deriving DecidableEq

/-- Embeds the mode normalization of `convert_to_jpeg` (lines 19-27): modes RGBA, LA and P
are pasted onto a fresh white RGB canvas of the image's size (`Image.new('RGB', img.size,
(255, 255, 255))`), with P first expanded by `img.convert('RGBA')`, and with the mask
argument `img.split()[-1]` used exactly when the (possibly expanded) mode is RGBA or LA;
any other non-RGB mode is converted directly by `img.convert('RGB')`. -/
def normalizeForJpeg (img : PILImage) : PILImage × NormStep :=
  if img.mode = .RGBA ∨ img.mode = .LA ∨ img.mode = .P then
    let expanded := img.mode = PyMode.P
    let mode2 := if expanded then PyMode.RGBA else img.mode
    let maskUsed := mode2 = PyMode.RGBA ∨ mode2 = PyMode.LA
    (⟨.RGB, img.size⟩, .composite (255, 255, 255) expanded maskUsed)
  else if img.mode ≠ .RGB then
    (⟨.RGB, img.size⟩, .directConvert)
  else
    (img, .unchanged)

/-- A JPEG file as written by line 34: the encoded mode and size, the quality argument, and
the optimize flag. -/
structure JpegFile : Type where
  mode : PyMode
  size : Nat × Nat
  quality : Nat
  optimize : Bool
deriving DecidableEq

/-- The filesystem state: what JPEG file, if any, sits at each absolute path. -/
def fsSave (fs : List String → Option JpegFile) (p : List String) (j : JpegFile) :
    List String → Option JpegFile :=
  fun q => if q = p then some j else fs q

/-- The fallible external steps of one `convert_to_jpeg` call: `Image.open` fails, or
`img.save` fails, or both succeed on a given loaded image. -/
inductive FileEvent : Type where
  | loadFail (msg : String)
  | saveFail (img : PILImage) (msg : String)
  | ok (img : PILImage)

/-- Embeds `convert_to_jpeg` (lines 12-40): on any exception the error is printed with the
input file's name and `None` is returned; on success the normalized image is saved at
`output_dir / (input stem + ".jpg")`, the success line is printed, and that path is
returned. Returns (returned value, final filesystem, printed lines). -/
def convert_to_jpeg (ev : FileEvent) (input_path : List String) (output_dir : List String)
    (quality : Nat) (fs : List String → Option JpegFile) :
    Option (List String) × ((List String → Option JpegFile) × List String) :=
  match ev with
  | .loadFail msg =>
    (none, fs, ["✗ Error converting " ++ pathName input_path ++ ": " ++ msg])
  | .saveFail _ msg =>
    (none, fs, ["✗ Error converting " ++ pathName input_path ++ ": " ++ msg])
  | .ok img =>
    let img2 := (normalizeForJpeg img).1
    let output_filename := pyStem (pathName input_path) ++ ".jpg"
    let output_path := output_dir ++ [output_filename]
    (some output_path,
     fsSave fs output_path ⟨img2.mode, img2.size, quality, true⟩,
     ["✓ Converted: " ++ pathName input_path ++ " → " ++ output_filename])

/-- Embeds the argument resolution of `main` for `input_dir` (lines 66-72): argument 1 when
given, else the project root `Path(__file__).parent.parent`. -/
def resolveInput (project_root : List String) (argv : List (List String)) : List String :=
  match argv with
  | [] => project_root
  | a :: _ => a

/-- Embeds the argument resolution of `main` for `output_dir` (lines 67-74): argument 2 when
given, else `project_root / 'images'`. -/
def resolveOutput (project_root : List String) (argv : List (List String)) : List String :=
  match argv with
  | _ :: b :: _ => b
  | _ => project_root ++ ["images"]

/-- Embeds `Path(__file__).parent.parent` (line 66): the script path with its last two
components removed. -/
def projectRootOf (scriptPath : List String) : List String :=
  scriptPath.dropLast.dropLast

/-- The absolute candidate paths produced by `find_images(input_dir)` (line 85). -/
def discoverImages (input_dir : List String) (tree : EntryList) : List (List String) :=
  (walkList defaultExcludeDirs tree).map (fun pr => input_dir ++ pr.1 ++ [pr.2])

/-- Embeds `Path.relative_to` (line 104): the components of `p` past `root` when `root` is a
componentwise prefix of `p`; `none` embeds the raised `ValueError`. -/
def relativeTo (p root : List String) : Option (List String) :=
  match root, p with
  | [], rest => some rest
  | _ :: _, [] => none
  | r :: rs, a :: as2 => if a = r then relativeTo as2 rs else none

/-- Embeds the markdown-reference loop of `main` (lines 103-105), iterating over the
`converted` pairs (original path, jpeg path): each iteration computes
`jpeg_path.relative_to(project_root)` and prints one embed line. Returns the printed lines
and `false` when an iteration raised `ValueError` (which aborts the loop there). -/
def renderMarkdown (project_root : List String) :
    List (List String × List String) → List String × Bool
  | [] => ([], true)
  | (_, jp) :: rest =>
    match relativeTo jp project_root with
    | none => ([], false)
    | some rel =>
      let r := renderMarkdown project_root rest
      (("![" ++ pyStem (pathName jp) ++ "](" ++ joinPath rel ++ ")") :: r.1, r.2)

/-- Embeds the conversion loop of `main` (lines 92-96) over the discovered paths paired with
their injected external events: each path is converted in order; a returned path appends
(input, output) to `converted`, a `None` result appends nothing, and the loop always
continues with the next candidate. Returns (converted pairs, final filesystem, printed
lines). -/
def convertLoop (output_dir : List String) (quality : Nat) :
    List (List String × FileEvent) → (List String → Option JpegFile) →
    List (List String × List String) × ((List String → Option JpegFile) × List String)
  | [], fs => ([], fs, [])
  | (p, e) :: rest, fs =>
    let r := convert_to_jpeg e p output_dir quality fs
    let rst := convertLoop output_dir quality rest r.2.1
    match r.1 with
    | some op => ((p, op) :: rst.1, rst.2.1, r.2.2 ++ rst.2.2)
    | none => (rst.1, rst.2.1, r.2.2 ++ rst.2.2)

/-- The final count line printed at line 98. -/
def summaryLine (k : Nat) : String :=
  "\n✓ Conversion complete! " ++ toString k ++ " image(s) converted."

/-- The observable outcome of one `main` run: the collected conversion pairs, the printed
lines in order, the final filesystem, and whether the run completed without an uncaught
exception (`ok = false` embeds the `ValueError` escaping from line 104). -/
structure MainOut : Type where
  converted : List (List String × List String)
  lines : List String
  fs : List String → Option JpegFile
  ok : Bool

/-- Embeds `main` (lines 63-106). `project_root` stands for `Path(__file__).parent.parent`;
`argv` are the CLI path arguments after the program name; `tree` is the contents of the
resolved input directory; `ev` injects the per-path external load/save outcomes; `fs` is
the initial filesystem. -/
def mainRun (project_root : List String) (argv : List (List String)) (tree : EntryList)
    (ev : List String → FileEvent) (fs : List String → Option JpegFile) : MainOut :=
  let input_dir := resolveInput project_root argv
  let output_dir := resolveOutput project_root argv
  let headerLines := ["Searching for images in: " ++ joinPath input_dir,
                      "Output directory: " ++ joinPath output_dir ++ "\n"]
  let images := discoverImages input_dir tree
  if images.isEmpty then
    ⟨[], headerLines ++ ["No images found to convert."], fs, true⟩
  else
    let foundLine := ["Found " ++ toString images.length ++ " image(s) to convert:\n"]
    let loop := convertLoop output_dir 85 (images.map (fun p => (p, ev p))) fs
    let converted := loop.1
    let summaryLines := [summaryLine converted.length,
                         "Images saved to: " ++ joinPath output_dir]
    if converted.isEmpty then
      ⟨converted, headerLines ++ foundLine ++ loop.2.2 ++ summaryLines, loop.2.1, true⟩
    else
      let md := renderMarkdown project_root converted
      ⟨converted,
       headerLines ++ foundLine ++ loop.2.2 ++ summaryLines ++
         ["\n---\nMarkdown image references:\n"] ++ md.1,
       loop.2.1, md.2⟩

/-- What happens when the script is started, as a function of whether the PIL package is
importable. -/
inductive StartOutcome : Type where
  | ranMain
  | uncaughtImportError
  | cleanExit (code : Nat) (msg : String)
deriving DecidableEq

/-- Embeds the module-level control flow of the script: line 10 `from PIL import Image`
executes when the module loads, before the `if __name__ == '__main__'` guard at line 108,
so an `ImportError` raised there propagates as an uncaught exception (interpreter
traceback); the `except ImportError` handler at lines 113-116 only covers exceptions raised
inside `main()`, which performs no import. -/
def scriptStartup (pilAvailable : Bool) : StartOutcome :=
  if pilAvailable then .ranMain else .uncaughtImportError

/-- The remediation path of lines 113-116: does the outcome print a message and exit
cleanly with a code. -/
def exitsCleanly : StartOutcome → Bool
  | .cleanExit _ _ => true
  | _ => false

/-- Shared concrete inputs for the closed run theorems below. -/
def treeOnePng : EntryList := .cons (.file "a.png") .nil

/-- Shared event oracle: every load succeeds with an RGBA image, every save succeeds. -/
def evAllOk : List String → FileEvent := fun _ => .ok ⟨.RGBA, (2, 3)⟩

/-- Shared initial filesystem: empty. -/
def emptyFs : List String → Option JpegFile := fun _ => none

/-- C2: normalization always yields an RGB image of the input's dimensions; modes P, LA and
RGBA go through white-background compositing with the alpha mask used (P after expansion to
RGBA, recorded by the `true` first flag); every other non-RGB mode is converted directly;
and the file a successful `convert_to_jpeg` writes is RGB with the input's size. -/
theorem convert_normalizes_to_rgb :
    (∀ (m : PyMode) (sz : Nat × Nat),
        (normalizeForJpeg ⟨m, sz⟩).1.mode = PyMode.RGB
        ∧ (normalizeForJpeg ⟨m, sz⟩).1.size = sz)
    ∧ (∀ sz, normalizeForJpeg ⟨PyMode.P, sz⟩
        = (⟨PyMode.RGB, sz⟩, NormStep.composite (255, 255, 255) true true))
    ∧ (∀ sz, normalizeForJpeg ⟨PyMode.LA, sz⟩
        = (⟨PyMode.RGB, sz⟩, NormStep.composite (255, 255, 255) false true))
    ∧ (∀ sz, normalizeForJpeg ⟨PyMode.RGBA, sz⟩
        = (⟨PyMode.RGB, sz⟩, NormStep.composite (255, 255, 255) false true))
    ∧ (∀ sz, (normalizeForJpeg ⟨PyMode.one, sz⟩).2 = NormStep.directConvert)
    ∧ (∀ sz, (normalizeForJpeg ⟨PyMode.L, sz⟩).2 = NormStep.directConvert)
    ∧ (∀ sz, (normalizeForJpeg ⟨PyMode.PA, sz⟩).2 = NormStep.directConvert)
    ∧ (∀ sz, (normalizeForJpeg ⟨PyMode.CMYK, sz⟩).2 = NormStep.directConvert)
    ∧ (∀ sz, (normalizeForJpeg ⟨PyMode.YCbCr, sz⟩).2 = NormStep.directConvert)
    ∧ (∀ sz, (normalizeForJpeg ⟨PyMode.I, sz⟩).2 = NormStep.directConvert)
    ∧ (∀ sz, (normalizeForJpeg ⟨PyMode.F, sz⟩).2 = NormStep.directConvert)
    ∧ (∀ (img : PILImage) (p d : List String) (q : Nat)
          (fs : List String → Option JpegFile),
        (convert_to_jpeg (FileEvent.ok img) p d q fs).2.1
            (d ++ [pyStem (pathName p) ++ ".jpg"])
          = some ⟨PyMode.RGB, img.size, q, true⟩) := by
  refine ⟨?_, fun sz => rfl, fun sz => rfl, fun sz => rfl, fun sz => rfl, fun sz => rfl,
    fun sz => rfl, fun sz => rfl, fun sz => rfl, fun sz => rfl, fun sz => rfl, ?_⟩
  · intro m sz
    cases m <;> simp [normalizeForJpeg]
  · intro img p d q fs
    obtain ⟨m, sz⟩ := img
    cases m <;> simp [convert_to_jpeg, fsSave, normalizeForJpeg]

/-- C3: a successful conversion returns `output_dir ++ [stem + ".jpg"]` — flat in the
output directory, depending only on the input's final component — and changes the
filesystem by exactly the one write at that path; `photo.png` maps to `photo.jpg`. -/
theorem convert_output_path_flat :
    (∀ (img : PILImage) (p d : List String) (q : Nat)
        (fs : List String → Option JpegFile),
      (convert_to_jpeg (FileEvent.ok img) p d q fs).1
        = some (d ++ [pyStem (pathName p) ++ ".jpg"])
      ∧ (convert_to_jpeg (FileEvent.ok img) p d q fs).2.1
        = fsSave fs (d ++ [pyStem (pathName p) ++ ".jpg"])
            ⟨(normalizeForJpeg img).1.mode, (normalizeForJpeg img).1.size, q, true⟩)
    ∧ pyStem "photo.png" ++ ".jpg" = "photo.jpg" :=
  ⟨fun _ _ _ _ _ => ⟨rfl, rfl⟩, rfl⟩

/-- C4: a failing load or save makes `convert_to_jpeg` return `None`, leave the filesystem
unchanged, and print the error with the input file's name; in the conversion loop the
failing candidate contributes nothing to `converted` and the remaining candidates are
still processed on the unchanged filesystem. -/
theorem convert_failure_skipped :
    (∀ (msg : String) (p d : List String) (q : Nat)
        (fs : List String → Option JpegFile),
      convert_to_jpeg (FileEvent.loadFail msg) p d q fs
        = (none, fs, ["✗ Error converting " ++ pathName p ++ ": " ++ msg]))
    ∧ (∀ (img : PILImage) (msg : String) (p d : List String) (q : Nat)
        (fs : List String → Option JpegFile),
      convert_to_jpeg (FileEvent.saveFail img msg) p d q fs
        = (none, fs, ["✗ Error converting " ++ pathName p ++ ": " ++ msg]))
    ∧ (∀ (msg : String) (p d : List String) (q : Nat)
        (rest : List (List String × FileEvent)) (fs : List String → Option JpegFile),
      convertLoop d q ((p, FileEvent.loadFail msg) :: rest) fs
        = ((convertLoop d q rest fs).1,
           (convertLoop d q rest fs).2.1,
           ("✗ Error converting " ++ pathName p ++ ": " ++ msg)
             :: (convertLoop d q rest fs).2.2))
    ∧ (∀ (img : PILImage) (msg : String) (p d : List String) (q : Nat)
        (rest : List (List String × FileEvent)) (fs : List String → Option JpegFile),
      convertLoop d q ((p, FileEvent.saveFail img msg) :: rest) fs
        = ((convertLoop d q rest fs).1,
           (convertLoop d q rest fs).2.1,
           ("✗ Error converting " ++ pathName p ++ ": " ++ msg)
             :: (convertLoop d q rest fs).2.2)) :=
  ⟨fun _ _ _ _ _ => rfl, fun _ _ _ _ _ _ => rfl,
   fun _ _ _ _ _ _ => rfl, fun _ _ _ _ _ _ _ => rfl⟩

/-- C5 counterexample: with project root `repo` and first CLI argument `other`, the
resolved input directory is `other` but the default output directory is `repo/images`,
not `<input_dir>/images`. -/
theorem output_default_not_input_relative :
    resolveInput ["repo"] [["other"]] = ["other"]
    ∧ resolveOutput ["repo"] [["other"]] = ["repo", "images"]
    ∧ decide (resolveOutput ["repo"] [["other"]]
        = resolveInput ["repo"] [["other"]] ++ ["images"]) = false :=
  ⟨rfl, rfl, by decide⟩

/-- C5 amended: when the output directory is not given as the second CLI argument it
defaults to `<project_root>/images`, where `project_root` is derived from the script's own
location (`Path(__file__).parent.parent`), whether or not an input directory was given;
this coincides with `<input_dir>/images` exactly when the input directory also defaulted
to the project root. -/
theorem output_default_is_project_root_images :
    (∀ (sp : List String),
        resolveOutput (projectRootOf sp) [] = projectRootOf sp ++ ["images"])
    ∧ (∀ (sp a : List String),
        resolveOutput (projectRootOf sp) [a] = projectRootOf sp ++ ["images"])
    ∧ (∀ (pr : List String), resolveInput pr [] = pr)
    ∧ projectRootOf ["repo", "scripts", "convert_images_to_jpeg.py"] = ["repo"] :=
  ⟨fun _ => rfl, fun _ _ => rfl, fun _ => rfl, rfl⟩

/-- C6 counterexample: project root `repo`, input directory `data` (CLI argument 1), output
directory `repo/images` (CLI argument 2), one discovered image `data/a.png` whose
conversion succeeds. The printed embed line is `![a](images/a.jpg)` — the output path
relative to the project root — while the output path has no form relative to the resolved
input root `data` at all (`relativeTo` is `none`), so the line is not relative to the
input root. -/
theorem markdown_relative_to_project_root_cex :
    (mainRun ["repo"] [["data"], ["repo", "images"]] treeOnePng evAllOk emptyFs).converted
      = [(["data", "a.png"], ["repo", "images", "a.jpg"])]
    ∧ (mainRun ["repo"] [["data"], ["repo", "images"]] treeOnePng evAllOk
        emptyFs).lines.getLastD "" = "![a](images/a.jpg)"
    ∧ relativeTo ["repo", "images", "a.jpg"]
        (resolveInput ["repo"] [["data"], ["repo", "images"]]) = none :=
  ⟨rfl, rfl, rfl⟩

/-- C6 amended: for every successful conversion the orchestrator prints exactly one
markdown embed line `![stem](relpath)`, where `relpath` is the output path relative to the
script-location-derived project root (not the resolved input root), provided every output
path lies under that project root; failed conversions never enter `converted` and get no
line. -/
theorem markdown_lines_form :
    ∀ (pr : List String) (convs : List (List String × List String)),
      (∀ c ∈ convs, (relativeTo c.2 pr).isSome = true) →
      renderMarkdown pr convs
        = (convs.map (fun c =>
            "![" ++ pyStem (pathName c.2) ++ "]("
              ++ joinPath ((relativeTo c.2 pr).getD []) ++ ")"),
           true) := by
  intro pr convs
  induction convs with
  | nil => intro _; rfl
  | cons c rest ih =>
    intro h
    obtain ⟨orig, jp⟩ := c
    have hc : (relativeTo jp pr).isSome = true := h (orig, jp) (by simp)
    obtain ⟨rel, hrel⟩ := Option.isSome_iff_exists.mp hc
    have hrest := ih (fun c2 hcm => h c2 (by simp [hcm]))
    simp [renderMarkdown, hrel, hrest]

/-- Witness for `markdown_lines_form` at a concrete conversion list. -/
theorem markdown_lines_form_witness :
    renderMarkdown ["repo"] [(["data", "a.png"], ["repo", "images", "a.jpg"])]
      = (["![a](images/a.jpg)"], true) :=
  (markdown_lines_form ["repo"] [(["data", "a.png"], ["repo", "images", "a.jpg"])]
      (by decide)).trans (by decide)

/-- C7: with PIL unavailable the script dies with an uncaught `ImportError` raised by the
module-level import on line 10; the remediation handler of lines 113-116 never runs, so
there is no clean exit with an instructional message. The handler is dead code for this
error — `main()` performs no import — so the code contradicts its own evident intent. -/
theorem missing_pil_uncaught :
    scriptStartup false = StartOutcome.uncaughtImportError
    ∧ exitsCleanly (scriptStartup false) = false
    ∧ exitsCleanly (StartOutcome.cleanExit 1
        "Error: PIL (Pillow) is required. Install it with: pip install Pillow") = true :=
  ⟨rfl, rfl, rfl⟩

/-- C8 counterexample: a run that discovers zero candidates prints only the two header
lines and `No images found to convert.` — no final count line `summaryLine 0` appears. -/
theorem no_summary_when_no_images :
    (mainRun ["repo"] [] EntryList.nil evAllOk emptyFs).converted = []
    ∧ (mainRun ["repo"] [] EntryList.nil evAllOk emptyFs).lines
      = ["Searching for images in: repo", "Output directory: repo/images\n",
         "No images found to convert."]
    ∧ ((mainRun ["repo"] [] EntryList.nil evAllOk emptyFs).lines.contains
        (summaryLine 0)) = false :=
  ⟨rfl, rfl, by decide⟩

/-- C8 amended: a run that discovers at least one candidate prints the final count line
with exactly the number of successful conversions; a run that discovers zero candidates
prints `No images found to convert.` instead of a count line. -/
theorem summary_counts_successes :
    ∀ (pr : List String) (argv : List (List String)) (tree : EntryList)
      (ev : List String → FileEvent) (fs : List String → Option JpegFile),
      (discoverImages (resolveInput pr argv) tree ≠ [] →
        summaryLine (mainRun pr argv tree ev fs).converted.length
          ∈ (mainRun pr argv tree ev fs).lines)
      ∧ (discoverImages (resolveInput pr argv) tree = [] →
        "No images found to convert." ∈ (mainRun pr argv tree ev fs).lines) := by
  intro pr argv tree ev fs
  constructor
  · intro hne
    have hne2 : (discoverImages (resolveInput pr argv) tree).isEmpty = false := by
      simpa [List.isEmpty_iff] using hne
    by_cases hc : (convertLoop (resolveOutput pr argv) 85
        ((discoverImages (resolveInput pr argv) tree).map (fun p => (p, ev p))) fs).1.isEmpty
      <;> simp [mainRun, hne2, hc, List.mem_append]
  · intro he
    have he2 : (discoverImages (resolveInput pr argv) tree).isEmpty = true := by
      simp [List.isEmpty_iff, he]
    simp [mainRun, he2]

/-- Witness for `summary_counts_successes`: both branches at concrete runs. -/
theorem summary_counts_successes_witness :
    summaryLine (mainRun ["repo"] [] treeOnePng evAllOk emptyFs).converted.length
      ∈ (mainRun ["repo"] [] treeOnePng evAllOk emptyFs).lines
    ∧ "No images found to convert."
      ∈ (mainRun ["repo"] [] EntryList.nil evAllOk emptyFs).lines :=
  ⟨(summary_counts_successes ["repo"] [] treeOnePng evAllOk emptyFs).1 (by decide),
   (summary_counts_successes ["repo"] [] EntryList.nil evAllOk emptyFs).2 rfl⟩

/-- C9: conversion is idempotent on the filesystem: converting the same input again, with
the target JPEG name already present in the output directory from the first run, succeeds
(no existence check occurs), returns the same output path, and leaves the filesystem
exactly as after the first run. The write of line 34 is modeled as an unconditional
overwrite, which is PIL's `save` behavior for an existing path. -/
theorem convert_overwrite_idempotent :
    ∀ (img : PILImage) (p d : List String) (q : Nat)
      (fs : List String → Option JpegFile),
      (convert_to_jpeg (FileEvent.ok img) p d q
          (convert_to_jpeg (FileEvent.ok img) p d q fs).2.1).1
        = (convert_to_jpeg (FileEvent.ok img) p d q fs).1
      ∧ (convert_to_jpeg (FileEvent.ok img) p d q
          (convert_to_jpeg (FileEvent.ok img) p d q fs).2.1).2.1
        = (convert_to_jpeg (FileEvent.ok img) p d q fs).2.1
      ∧ (convert_to_jpeg (FileEvent.ok img) p d q fs).2.1
          (d ++ [pyStem (pathName p) ++ ".jpg"])
        = some ⟨(normalizeForJpeg img).1.mode, (normalizeForJpeg img).1.size, q, true⟩ := by
  intro img p d q fs
  refine ⟨rfl, ?_, ?_⟩
  · funext x
    by_cases hx : x = d ++ [pyStem (pathName p) ++ ".jpg"] <;>
      simp [convert_to_jpeg, fsSave, hx]
  · simp [convert_to_jpeg, fsSave]

/-- C10: a run with project root `repo`, input directory `repo`, output directory `out`
(outside the project root) and one successfully converted image: the conversion completes
and is recorded on the filesystem, the count line is printed, but the markdown loop's
`jpeg_path.relative_to(project_root)` raises, so the run dies with an uncaught error
(`ok = false`) and no `![...](...)` line is ever printed. -/
theorem markdown_crash_outside_project_root :
    (mainRun ["repo"] [["repo"], ["out"]] treeOnePng evAllOk emptyFs).ok = false
    ∧ (mainRun ["repo"] [["repo"], ["out"]] treeOnePng evAllOk emptyFs).converted
      = [(["repo", "a.png"], ["out", "a.jpg"])]
    ∧ (mainRun ["repo"] [["repo"], ["out"]] treeOnePng evAllOk emptyFs).fs
        ["out", "a.jpg"] = some ⟨PyMode.RGB, (2, 3), 85, true⟩
    ∧ (mainRun ["repo"] [["repo"], ["out"]] treeOnePng evAllOk emptyFs).lines
      = ["Searching for images in: repo", "Output directory: out\n",
         "Found 1 image(s) to convert:\n", "✓ Converted: a.png → a.jpg",
         "\n✓ Conversion complete! 1 image(s) converted.", "Images saved to: out",
         "\n---\nMarkdown image references:\n"] :=
  ⟨rfl, rfl, by decide, rfl⟩
